import Mathlib

/-!
Shallow embedding of the reservation front end in `src/app.py`
(koreasmart/echo-reservation).

Python strings are modelled as lists of code points (`PyStr`); the Python
string operations used by the program (`in`, `find`, slicing, `strip`,
`split`) are modelled exactly, including `str.find`'s first-occurrence
semantics and `split(sep, 1)`'s first-separator split.  Python dicts are
modelled as insertion-ordered association lists with Python's update
semantics, and Python truthiness of the relevant values (`None`, empty
string, empty dict) is modelled explicitly.
-/

/-- Python `str` modelled as its list of code points. -/
abbrev PyStr := List Char

/-- Embed a Lean string literal into the Python-string model. -/
def pyStr (s : String) : PyStr := s.data

/-- The whitespace recognised by Python `str.strip()` (ASCII part). -/
def pyIsSpace (c : Char) : Bool :=
  c == ' ' || c == '\t' || c == '\n' || c == '\r' || c == '\x0b' || c == '\x0c'

/-- Python `s.strip()`: drop leading and trailing whitespace. -/
def pyStrip (s : PyStr) : PyStr :=
  ((s.dropWhile pyIsSpace).reverse.dropWhile pyIsSpace).reverse

/-- Worker for Python `hay.find(needle)`: the first index `≥ i` at which
`needle` occurs in the remaining haystack, if any. -/
def strFindGo (needle : PyStr) : PyStr → Nat → Option Nat
  | [], i => if needle.isPrefixOf ([] : PyStr) then some i else none
  | c :: t, i => if needle.isPrefixOf (c :: t) then some i else strFindGo needle t (i + 1)

/-- Python `hay.find(needle)`, with `none` standing for Python's `-1`. -/
def strFind (hay needle : PyStr) : Option Nat := strFindGo needle hay 0

/-- Python `needle in hay` (substring containment). -/
def pyIn (needle hay : PyStr) : Bool := (strFind hay needle).isSome

/-- Python `s.split(sep)` for a one-character separator: non-collapsing,
`"".split(sep) = [""]`. -/
def splitOnChar (sep : Char) : PyStr → List PyStr
  | [] => [[]]
  | c :: cs =>
    if c == sep then [] :: splitOnChar sep cs
    else
      match splitOnChar sep cs with
      | [] => [[c]]
      | h :: t => (c :: h) :: t

/-- Python dict assignment `d[k] = v` on an insertion-ordered association
list: an existing key keeps its position and gets the new value, a new key
is appended at the end. -/
def dictSet (d : List (PyStr × PyStr)) (k v : PyStr) : List (PyStr × PyStr) :=
  if d.any (fun kv => kv.1 == k) then
    d.map (fun kv => if kv.1 == k then (k, v) else kv)
  else d ++ [(k, v)]

/-- Python `d.get(k)`. -/
def dictGet (d : List (PyStr × PyStr)) (k : PyStr) : Option PyStr :=
  (d.find? (fun kv => kv.1 == k)).map (fun kv => kv.2)

/-- The literal opening marker `"[AUTO_FILL]"` of `app.py`. -/
def AUTO_OPEN : PyStr := pyStr "[AUTO_FILL]"

/-- The literal closing marker `"[/AUTO_FILL]"` of `app.py`. -/
def AUTO_CLOSE : PyStr := pyStr "[/AUTO_FILL]"

/-- The region `response[start:end].strip()` extracted by `parse_auto_fill`
(`app.py` lines 90-92): from just after the first occurrence of
`[AUTO_FILL]` up to the first occurrence of `[/AUTO_FILL]`; the Python
slice is empty when the stop index precedes the start index. -/
def autoFillRegion (response : PyStr) : PyStr :=
  let start := (strFind response AUTO_OPEN).getD 0 + AUTO_OPEN.length
  let stop := (strFind response AUTO_CLOSE).getD 0
  pyStrip ((response.drop start).take (stop - start))

/-- The body of the line loop of `parse_auto_fill` (`app.py` lines 95-98):
a line containing a colon is split at the first colon into a stripped key
and a stripped value and stored in the dict; other lines are skipped. -/
def parseLineStep (data : List (PyStr × PyStr)) (line : PyStr) : List (PyStr × PyStr) :=
  if line.contains ':' then
    dictSet data (pyStrip (line.takeWhile (fun c => !(c == ':'))))
      (pyStrip ((line.dropWhile (fun c => !(c == ':'))).drop 1))
  else data

/-- `parse_auto_fill` (`app.py` lines 87-100): if both markers occur in the
response, parse the region between them line by line into a dict and return
it; otherwise return Python `None`. -/
def parse_auto_fill (response : PyStr) : Option (List (PyStr × PyStr)) :=
  if pyIn AUTO_OPEN response && pyIn AUTO_CLOSE response then
    some ((splitOnChar '\n' (autoFillRegion response)).foldl parseLineStep [])
  else none

/-- A catalog slot (`availableSlots` entry of `eco_programs.json`, §3 of the
data model). Counts are unbounded Python ints. -/
structure Slot where
  date : PyStr
  time : PyStr
  capacity : Int
  reserved : Int
deriving Repr, DecidableEq

/-- A catalog program. -/
structure Program where
  programId : PyStr
  name : PyStr
  target : PyStr
  availableSlots : List Slot
deriving Repr, DecidableEq

/-- The `visitRules` object; Python `dict.get` yields `None` for a missing
key, hence the optional fields. -/
structure VisitRules where
  minPeoplePerTeam : Option Int
  maxPeoplePerTeam : Option Int
  reservationDeadlineHours : Option Int
deriving Repr, DecidableEq

/-- The catalog (`eco_data`): `centerName` may be absent, `visitRules` keys
may be absent, `faq` entries are free text. -/
structure EcoData where
  centerName : Option PyStr
  visitRules : VisitRules
  programs : List Program
  faq : List PyStr
deriving Repr, DecidableEq

/-- The view record appended by `find_slots_for_date` (`app.py` 110-118). -/
structure SlotView where
  programId : PyStr
  programName : PyStr
  target : PyStr
  time : PyStr
  capacity : Int
  reserved : Int
  remain : Int
deriving Repr, DecidableEq

/-- A Python `datetime.date` (no time component). -/
structure PyDate where
  year : Nat
  month : Nat
  day : Nat
deriving Repr, DecidableEq

/-- Zero-pad a numeral to two digits (`%m`, `%d`). -/
def pad2 (n : Nat) : PyStr :=
  if n < 10 then '0' :: pyStr (toString n) else pyStr (toString n)

/-- Zero-pad a numeral to four digits (`%Y`). -/
def pad4 (n : Nat) : PyStr :=
  if n < 10 then pyStr "000" ++ pyStr (toString n)
  else if n < 100 then pyStr "00" ++ pyStr (toString n)
  else if n < 1000 then '0' :: pyStr (toString n)
  else pyStr (toString n)

/-- Python `dt.strftime("%Y-%m-%d")` (`app.py` line 104). -/
def formatDate (d : PyDate) : PyStr :=
  pad4 d.year ++ '-' :: (pad2 d.month ++ '-' :: pad2 d.day)

/-- The dict literal appended for a matching slot (`app.py` lines 110-118). -/
def slotView (p : Program) (s : Slot) : SlotView :=
  { programId := p.programId
    programName := p.name
    target := p.target
    time := s.time
    capacity := s.capacity
    reserved := s.reserved
    remain := s.capacity - s.reserved }

/-- `find_slots_for_date` (`app.py` lines 102-119): nested loop over
programs and their slots, appending a view record for every slot whose
`date` equals the formatted input date. -/
def find_slots_for_date (eco : EcoData) (dt : PyDate) : List SlotView :=
  let target_str := formatDate dt
  eco.programs.foldl
    (fun results p =>
      p.availableSlots.foldl
        (fun results slot =>
          if slot.date == target_str then results ++ [slotView p slot] else results)
        results)
    []

/-- The matching view records a single program contributes on a date. -/
def matchingViews (t : PyStr) (p : Program) : List SlotView :=
  (p.availableSlots.filter (fun s => s.date == t)).map (slotView p)

/-- An opening brace character, as data. -/
def lbr : Char := Char.ofNat 123

/-- A closing brace character, as data. -/
def rbr : Char := Char.ofNat 125

/-- A JSON string literal (the catalog strings of this model contain no
characters that `json.dumps` would escape). -/
def jsonQ (s : PyStr) : PyStr := '"' :: (s ++ ['"'])

/-- A JSON integer. -/
def jsonInt (n : Int) : PyStr := pyStr (toString n)

/-- Join pieces with a separator, as Python `sep.join`. -/
def joinSep (sep : PyStr) : List PyStr → PyStr
  | [] => []
  | [x] => x
  | x :: y :: t => x ++ sep ++ joinSep sep (y :: t)

/-- A JSON array with `json.dumps`'s default `", "` separator. -/
def jsonArr (xs : List PyStr) : PyStr := '[' :: (joinSep (pyStr ", ") xs ++ [']'])

/-- `json.dumps` of one slot object. -/
def jsonOfSlot (s : Slot) : PyStr :=
  lbr :: (pyStr "\"date\": " ++ jsonQ s.date ++ pyStr ", \"time\": " ++ jsonQ s.time ++
    pyStr ", \"capacity\": " ++ jsonInt s.capacity ++
    pyStr ", \"reserved\": " ++ jsonInt s.reserved ++ [rbr])

/-- `json.dumps` of one program object. -/
def jsonOfProgram (p : Program) : PyStr :=
  lbr :: (pyStr "\"programId\": " ++ jsonQ p.programId ++ pyStr ", \"name\": " ++ jsonQ p.name ++
    pyStr ", \"target\": " ++ jsonQ p.target ++
    pyStr ", \"availableSlots\": " ++ jsonArr (p.availableSlots.map jsonOfSlot) ++ [rbr])

/-- `json.dumps` of the `visitRules` object; keys absent from the dict are
simply not emitted. -/
def jsonOfVisitRules (r : VisitRules) : PyStr :=
  lbr :: (joinSep (pyStr ", ")
    ((r.minPeoplePerTeam.map (fun n => pyStr "\"minPeoplePerTeam\": " ++ jsonInt n)).toList ++
     (r.maxPeoplePerTeam.map (fun n => pyStr "\"maxPeoplePerTeam\": " ++ jsonInt n)).toList ++
     (r.reservationDeadlineHours.map
        (fun n => pyStr "\"reservationDeadlineHours\": " ++ jsonInt n)).toList) ++ [rbr])

/-- `json.dumps(eco_data, ensure_ascii=False)` (`app.py` line 36) over the
modelled catalog. -/
def jsonDumps (e : EcoData) : PyStr :=
  lbr :: (joinSep (pyStr ", ")
    ((e.centerName.map (fun c => pyStr "\"centerName\": " ++ jsonQ c)).toList ++
     [pyStr "\"visitRules\": " ++ jsonOfVisitRules e.visitRules,
      pyStr "\"programs\": " ++ jsonArr (e.programs.map jsonOfProgram),
      pyStr "\"faq\": " ++ jsonArr (e.faq.map jsonQ)]) ++ [rbr])

/-- A Python f-string substitution of a possibly-`None` int (`dict.get` of a
missing key prints as `None`). -/
def pyFmtOptInt : Option Int → PyStr
  | none => pyStr "None"
  | some n => pyStr (toString n)

/-- Template text of `build_system_prompt` before `center_name`. -/
def promptT0 : PyStr := pyStr "\n너는 "

/-- Template text between `center_name` and `min_people`. -/
def promptT1 : PyStr := pyStr (" 온라인 방문 예약을 도와주는 AI 챗봇이야.\n\n" ++
  "아래 JSON 데이터는 자연생태관의 프로그램, 시간표, 방문 규정을 담고 있어.\n" ++
  "이 JSON 데이터만을 기준으로 대답해야 해. 대신 자연생태관 예약 혹은 자연생태관 프로그램과 관련있는 질문중 JSON 데이터에 없을 경우 대한민국에 있는 평균치의 자연생태관 기준으로 답해줘. 짧고 명확하고 친절하게 답해줘.\n" ++
  "위의 제시한 관련된 데이터가 아닌 경우 엄격하게 모르는 정보는 \"해당 정보는 제공되지 않습니다.\"라고 말해.\n\n\n" ++
  "방문 규칙:\n- 1팀 최소 인원: ")

/-- Template text between `min_people` and `max_people`. -/
def promptT2 : PyStr := pyStr "명\n- 1팀 최대 인원: "

/-- Template text between `max_people` and `deadline_hours`. -/
def promptT3 : PyStr := pyStr "명\n- 예약 마감: 방문 예정일 "

/-- Template text between `deadline_hours` and `json_str`. -/
def promptT4 : PyStr := pyStr "시간 전까지\n\nJSON 데이터:\n"

/-- Template text after `json_str` (the numbered behavioural rules). -/
def promptT5 : PyStr := pyStr ("\n\n답변 시 지켜야 할 원칙:\n" ++
  "1. 사용자가 날짜, 인원, 대상(초등학생/중학생 등)을 말하면,\n" ++
  "   JSON의 programs와 availableSlots를 보고 가능한 프로그램과 시간을 안내해.\n" ++
  "2. 정원(capacity)와 reserved를 보고, 남은 자리가 없으면 \"정원 마감\"이라고 알려줘.\n" ++
  "3. 사용자가 안내한 특정 프로그램과 시간을 선택하거나 혹은 직접 프로그램과 시간을 선택하면, \"예약 정보를 폼에 자동으로 입력하시겠습니까?\"라고 물어봐.\n" ++
  "4. 사용자가 승인하면 다음 형식으로 정확히 답변해:\n" ++
  "   [AUTO_FILL]\n   DATE: YYYY-MM-DD\n   PROGRAM: 프로그램명\n   TIME: HH:MM-HH:MM\n   [/AUTO_FILL]\n" ++
  "5. 질문이 FAQ 내용과 관련 있으면, faq 항목을 참고해서 답해.\n" ++
  "6. 자연생태관 예약 혹은 자연생태관 프로그램과 관련없는 질문을 할 경우, \"저는 자연생태관 예약에 관한 질문에만 답변할 수 있습니다.\"라고 답해.\n" ++
  "7. 프로그램에 관련된 설명이나 예약 절차를 설명할 때는, 사용자가 이해하기 쉽게 단계별로 차근차근 설명해.\n" ++
  "8. 항상 한국어로, 친절하고 이해하기 쉽게 설명해.\n")

/-- `build_system_prompt` (`app.py` lines 30-70): the fixed Korean template
with `center_name` (falling back to `"자연생태관"` when the key is absent),
the three `visitRules` values and the serialized catalog substituted in. -/
def build_system_prompt (eco : EcoData) : PyStr :=
  let center_name := eco.centerName.getD (pyStr "자연생태관")
  let max_people := pyFmtOptInt eco.visitRules.maxPeoplePerTeam
  let min_people := pyFmtOptInt eco.visitRules.minPeoplePerTeam
  let deadline_hours := pyFmtOptInt eco.visitRules.reservationDeadlineHours
  let json_str := jsonDumps eco
  promptT0 ++ center_name ++ promptT1 ++ min_people ++ promptT2 ++ max_people ++
    promptT3 ++ deadline_hours ++ promptT4 ++ json_str ++ promptT5

/-- Python truthiness of an optional string (`None` and `""` are falsy). -/
def pyTruthyStr : Option PyStr → Bool
  | none => false
  | some s => !s.isEmpty

/-- Python truthiness of `parse_auto_fill`'s result (`None` and the empty
dict are falsy). -/
def pyTruthyDict : Option (List (PyStr × PyStr)) → Bool
  | none => false
  | some d => !d.isEmpty

/-- The widget values present when the submit button is pressed
(`app.py` lines 296-382). -/
structure FormInput where
  form_date : Option PyDate
  selected_program : Option PyStr
  org_name : PyStr
  contact : PyStr
  representative : PyStr
  email : PyStr
  people : Int
  agree_terms : Bool
deriving Repr, DecidableEq

/-- Outcome of a submit: one inline error message, or the success banner. -/
inductive SubmitResult where
  | error (msg : PyStr)
  | success (summary : PyStr)
deriving Repr, DecidableEq

/-- The first validation error message (`app.py` line 386). -/
def errSelectDate : PyStr := pyStr "캘린더에서 날짜를 먼저 선택해 주세요."

/-- The second validation error message (`app.py` line 388). -/
def errSelectProgram : PyStr := pyStr "프로그램을 선택해 주세요."

/-- The third validation error message (`app.py` line 390). -/
def errRequiredFields : PyStr := pyStr "필수 신청자 정보를 모두 입력해 주세요."

/-- The fourth validation error message (`app.py` line 392). -/
def errAgreeTerms : PyStr := pyStr "약관에 동의해야 신청이 가능합니다."

/-- Python `dt.strftime("%Y년 %m월 %d일")`. -/
def formatDateK (d : PyDate) : PyStr :=
  pad4 d.year ++ pyStr "년 " ++ pad2 d.month ++ pyStr "월 " ++ pad2 d.day ++ pyStr "일"

/-- The success banner text (`app.py` lines 394-403). -/
def successSummary (f : FormInput) : PyStr :=
  pyStr "✅ 예약 신청이 완료되었습니다!\n\n**예약 정보**\n- 방문일: " ++
    formatDateK (f.form_date.getD ⟨0, 0, 0⟩) ++
    pyStr "\n- 프로그램: " ++ f.selected_program.getD [] ++
    pyStr "\n- 단체명: " ++ f.org_name ++
    pyStr "\n- 인원: " ++ pyStr (toString f.people) ++
    pyStr "명\n- 담당자: " ++ f.representative ++
    pyStr "\n\n※ 예약 확정은 담당자 검토 후 연락드리겠습니다."

/-- The submit branch of the reservation form (`app.py` lines 384-406):
the four validation checks in their source order, the first failing one
reporting its error and leaving the session state untouched; on success the
banner is produced and `auto_fill_data` / `selected_date` are reset to
`None`. -/
def submitHandler (f : FormInput) (afd : Option (List (PyStr × PyStr)))
    (sd : Option PyDate) :
    SubmitResult × Option (List (PyStr × PyStr)) × Option PyDate :=
  if f.form_date.isNone then (.error errSelectDate, afd, sd)
  else if !(pyTruthyStr f.selected_program) then (.error errSelectProgram, afd, sd)
  else if f.org_name.isEmpty || f.contact.isEmpty || f.representative.isEmpty then
    (.error errRequiredFields, afd, sd)
  else if !f.agree_terms then (.error errAgreeTerms, afd, sd)
  else (.success (successSummary f), none, none)

/-- One conversation turn (`{"role": ..., "content": ...}`). -/
structure Turn where
  role : PyStr
  content : PyStr
deriving Repr, DecidableEq

/-- The fixed confirmation suffix appended after auto-fill (`app.py` 436). -/
def confirmSuffix : PyStr := pyStr "\n\n✅ 예약 정보가 왼쪽 폼에 자동으로 입력되었습니다!"

/-- Python `hay.split(needle)[0]`: everything before the first occurrence of
the separator, or the whole string when it is absent. -/
def takeBeforeSub (needle hay : PyStr) : PyStr :=
  hay.take ((strFind hay needle).getD hay.length)

/-- The chat input handler (`app.py` lines 423-438), with the completion
call's reply passed in as data: append the user turn; if the parsed
auto-fill dict is truthy, store it and append the reply truncated at the
opening marker, stripped, with the confirmation suffix; otherwise append
the reply verbatim and keep the previous auto-fill state. -/
def chatStep (hist : List Turn) (afd : Option (List (PyStr × PyStr)))
    (prompt reply : PyStr) : List Turn × Option (List (PyStr × PyStr)) :=
  let hist1 := hist ++ [⟨pyStr "user", prompt⟩]
  let auto_fill := parse_auto_fill reply
  if pyTruthyDict auto_fill then
    (hist1 ++ [⟨pyStr "assistant", pyStrip (takeBeforeSub AUTO_OPEN reply) ++ confirmSuffix⟩],
      auto_fill)
  else
    (hist1 ++ [⟨pyStr "assistant", reply⟩], afd)

/-- The synthetic greeting content (`app.py` lines 172-177 and 447-452). -/
def greetingContent : PyStr :=
  pyStr ("안녕하세요! 자연생태관 예약 상담 챗봇입니다. 🌿\n\n" ++
    "방문 날짜, 인원, 대상(초등학생/중학생/성인) 등을 말씀해 주시면\n" ++
    "적합한 프로그램을 안내해 드리겠습니다.\n\n" ++
    "예시: \x279월 15일에 초등학생 30명이 방문하려고 합니다.\x27")

/-- The synthetic assistant greeting that opens every transcript. -/
def greeting : Turn := ⟨pyStr "assistant", greetingContent⟩

/-- Chat-related session state: the transcript and the pending auto-fill. -/
structure ChatState where
  chat_history : List Turn
  auto_fill_data : Option (List (PyStr × PyStr))
deriving Repr, DecidableEq

/-- Session-state bootstrapping (`app.py` lines 168-182). -/
def initialChatState : ChatState := ⟨[greeting], none⟩

/-- The session operations that touch the transcript: a chat round trip and
the conversation-reset button. -/
inductive SessionOp where
  | chat (prompt reply : PyStr)
  | reset

/-- Effect of one session operation on the chat state: a chat round trip
runs `chatStep`; reset (`app.py` lines 443-456) restores the single
greeting and clears the auto-fill data. -/
def applyOp (s : ChatState) : SessionOp → ChatState
  | .chat prompt reply =>
    let r := chatStep s.chat_history s.auto_fill_data prompt reply
    ⟨r.1, r.2⟩
  | .reset => ⟨[greeting], none⟩

/-- Chat states reachable from session start by the session operations. -/
inductive Reachable : ChatState → Prop where
  | init : Reachable initialChatState
  | step (s : ChatState) (op : SessionOp) : Reachable s → Reachable (applyOp s op)

/-! Helper lemmas. -/

/-- The inner slot loop of `find_slots_for_date` appends exactly the
matching views, in slot order. -/
lemma slots_foldl_eq (p : Program) (t : PyStr) (slots : List Slot) (acc : List SlotView) :
    slots.foldl
      (fun results slot => if slot.date == t then results ++ [slotView p slot] else results)
      acc = acc ++ (slots.filter (fun s => s.date == t)).map (slotView p) := by
  induction slots generalizing acc with
  | nil => simp
  | cons s ss ih =>
    simp only [List.foldl_cons, List.filter_cons]
    cases h : (s.date == t) with
    | true =>
      rw [if_pos rfl, if_pos rfl, ih]
      simp
    | false =>
      rw [if_neg Bool.false_ne_true, if_neg Bool.false_ne_true, ih]

/-- The outer program loop of `find_slots_for_date` appends each program's
matching views, in program order. -/
lemma programs_foldl_eq (t : PyStr) (ps : List Program) (acc : List SlotView) :
    ps.foldl
      (fun results p =>
        p.availableSlots.foldl
          (fun results slot => if slot.date == t then results ++ [slotView p slot] else results)
          results)
      acc = acc ++ (ps.map (matchingViews t)).flatten := by
  induction ps generalizing acc with
  | nil => simp
  | cons p ps ih =>
    simp only [List.foldl_cons]
    rw [slots_foldl_eq, ih]
    simp [matchingViews, List.append_assoc]

/-- `find_slots_for_date` as a filter-and-map in catalog order. -/
lemma find_slots_eq (eco : EcoData) (dt : PyDate) :
    find_slots_for_date eco dt = (eco.programs.map (matchingViews (formatDate dt))).flatten := by
  simpa [find_slots_for_date] using programs_foldl_eq (formatDate dt) eco.programs []

/-- Soundness and minimality of the `str.find` worker. -/
lemma strFindGo_some (needle : PyStr) (s : PyStr) (i0 i : Nat)
    (h : strFindGo needle s i0 = some i) :
    i0 ≤ i ∧ needle.isPrefixOf (s.drop (i - i0)) = true ∧
      ∀ j, i0 ≤ j → j < i → needle.isPrefixOf (s.drop (j - i0)) = false := by
  induction s generalizing i0 with
  | nil =>
    simp only [strFindGo] at h
    split at h
    · rename_i hp
      cases h
      refine ⟨Nat.le_refl _, by simpa using hp, fun j hj1 hj2 => absurd hj1 (Nat.not_le.mpr hj2)⟩
    · cases h
  | cons c t ih =>
    simp only [strFindGo] at h
    split at h
    · rename_i hp
      cases h
      refine ⟨Nat.le_refl _, by simpa using hp, fun j hj1 hj2 => absurd hj1 (Nat.not_le.mpr hj2)⟩
    · rename_i hp
      obtain ⟨h1, h2, h3⟩ := ih (i0 + 1) h
      refine ⟨by omega, ?_, ?_⟩
      · have he : i - i0 = (i - (i0 + 1)) + 1 := by omega
        rw [he, List.drop_succ_cons]
        exact h2
      · intro j hj1 hj2
        rcases Nat.eq_or_lt_of_le hj1 with he | hlt
        · rw [← he, Nat.sub_self, List.drop_zero]
          exact Bool.not_eq_true _ ▸ Bool.of_not_eq_true hp
        · have he : j - i0 = (j - (i0 + 1)) + 1 := by omega
          rw [he, List.drop_succ_cons]
          exact h3 j hlt hj2

/-- Python `hay.find(needle)` returns the first occurrence. -/
lemma strFind_some (hay needle : PyStr) (i : Nat) (h : strFind hay needle = some i) :
    needle.isPrefixOf (hay.drop i) = true ∧
      ∀ j, j < i → needle.isPrefixOf (hay.drop j) = false := by
  obtain ⟨-, h2, h3⟩ := strFindGo_some needle hay 0 i h
  exact ⟨by simpa using h2, fun j hj => by simpa using h3 j (Nat.zero_le j) hj⟩

/-- A string of the form `a ++ ":" ++ b` contains a colon. -/
lemma contains_append_colon (a b : PyStr) : (a ++ ':' :: b).contains ':' = true := by
  induction a with
  | nil => simp [List.contains_cons]
  | cons c t ih => simp [List.contains_cons, ih]

/-- `takeWhile` up to the first colon of `a ++ ":" ++ b` is `a` when `a` is
colon-free. -/
lemma takeWhile_colon (a b : PyStr) (ha : a.contains ':' = false) :
    (a ++ ':' :: b).takeWhile (fun c => !(c == ':')) = a := by
  induction a with
  | nil => simp [List.takeWhile_cons]
  | cons c t ih =>
    simp only [List.contains_cons, Bool.or_eq_false_iff, beq_eq_false_iff_ne] at ha
    simp only [List.cons_append, List.takeWhile_cons]
    have hc : (c == ':') = false := by
      exact beq_eq_false_iff_ne.mpr (fun he => ha.1 he.symm)
    simp [hc, ih ha.2]

/-- `dropWhile` up to the first colon of `a ++ ":" ++ b` is `":" ++ b` when
`a` is colon-free. -/
lemma dropWhile_colon (a b : PyStr) (ha : a.contains ':' = false) :
    (a ++ ':' :: b).dropWhile (fun c => !(c == ':')) = ':' :: b := by
  induction a with
  | nil => simp [List.dropWhile_cons]
  | cons c t ih =>
    simp only [List.contains_cons, Bool.or_eq_false_iff, beq_eq_false_iff_ne] at ha
    simp only [List.cons_append, List.dropWhile_cons]
    have hc : (c == ':') = false := by
      exact beq_eq_false_iff_ne.mpr (fun he => ha.1 he.symm)
    simp [hc, ih ha.2]

/-- Lines without a colon leave the dict unchanged through the loop. -/
lemma foldl_parseLineStep_nil (lines : List PyStr) (d : List (PyStr × PyStr))
    (h : ∀ l ∈ lines, l.contains ':' = false) :
    lines.foldl parseLineStep d = d := by
  induction lines generalizing d with
  | nil => rfl
  | cons l ls ih =>
    have hl : parseLineStep d l = d := by
      have hc : ¬(List.contains l ':' = true) := by
        simpa using h l (List.mem_cons_self l ls)
      unfold parseLineStep
      rw [if_neg hc]
    rw [List.foldl_cons, hl]
    exact ih d (fun x hx => h x (List.mem_cons_of_mem l hx))

/-- A `some` result of `parse_auto_fill` means both markers occur. -/
lemma parse_auto_fill_isSome_markers (r : PyStr) (h : (parse_auto_fill r).isSome = true) :
    pyIn AUTO_OPEN r = true ∧ pyIn AUTO_CLOSE r = true := by
  cases hc : (pyIn AUTO_OPEN r && pyIn AUTO_CLOSE r) with
  | true => exact Bool.and_eq_true_iff.mp hc
  | false => rw [parse_auto_fill, hc] at h; simp at h

/-- A truthy Python value is not `None`. -/
lemma pyTruthyDict_isSome (o : Option (List (PyStr × PyStr))) (h : pyTruthyDict o = true) :
    o.isSome = true := by
  cases o with
  | none => simp [pyTruthyDict] at h
  | some d => rfl

/-! Concrete fixtures used by the witness theorems. -/

/-- A slot with free capacity on 2025-09-15. -/
def exSlotA : Slot := ⟨pyStr "2025-09-15", pyStr "10:00-11:00", 30, 12⟩

/-- An overbooked slot on 2025-09-15 (negative remainder). -/
def exSlotB : Slot := ⟨pyStr "2025-09-15", pyStr "14:00-15:00", 20, 25⟩

/-- First catalog program. -/
def exProgramA : Program := ⟨pyStr "p-01", pyStr "숲 체험", pyStr "초등학생", [exSlotA]⟩

/-- Second catalog program. -/
def exProgramB : Program := ⟨pyStr "p-02", pyStr "습지 관찰", pyStr "중학생", [exSlotB]⟩

/-- Example visit rules. -/
def exRules : VisitRules := ⟨some 10, some 40, some 48⟩

/-- Example catalog with two programs sharing a date. -/
def ecoEx : EcoData :=
  ⟨some (pyStr "자연생태관"), exRules, [exProgramA, exProgramB], [pyStr "주차장이 있나요?"]⟩

/-- Example catalog lacking the `centerName` key. -/
def ecoNoName : EcoData := ⟨none, exRules, [], []⟩

/-- The spec's canonical auto-fill reply. -/
def autoFillEx : PyStr :=
  pyStr "[AUTO_FILL]\nDATE: 2025-09-15\nPROGRAM: Forest Walk\nTIME: 10:00-11:00\n[/AUTO_FILL]"

/-- An auto-fill block with an unrecognized key and a colon-free line. -/
def autoFillExtraEx : PyStr :=
  pyStr "[AUTO_FILL]\nNOTE: hi\nno colon line\nDATE: 2025-09-15\n[/AUTO_FILL]"

/-- An assistant reply with text before the block. -/
def replyEx : PyStr :=
  pyStr "네, 입력할게요. [AUTO_FILL]\nDATE: 2025-09-15\nPROGRAM: 숲 체험\nTIME: 10:00-11:00\n[/AUTO_FILL]"

/-- A reply whose first closing marker precedes its opening marker. -/
def invertedEx : PyStr := pyStr "[/AUTO_FILL][AUTO_FILL]"

/-! Claim theorems. -/

/-- C1: for every catalog and calendar date, `find_slots_for_date` returns
exactly one view record per slot (of any program) whose `date` field equals
the formatted input date under exact string equality — the concatenation,
in catalog order, of each program's filtered slots mapped to view records
carrying the program's id, name and target and the slot's time, capacity,
reserved and `remain = capacity - reserved` (unclamped, negative allowed);
as a pure function it has no side effects and yields `[]`, not an error,
when no slot matches. -/
theorem find_slots_for_date_spec (eco : EcoData) (dt : PyDate) :
    find_slots_for_date eco dt =
      eco.programs.flatMap (fun p =>
        (p.availableSlots.filter (fun s => s.date == formatDate dt)).map (fun s =>
          { programId := p.programId, programName := p.name, target := p.target,
            time := s.time, capacity := s.capacity, reserved := s.reserved,
            remain := s.capacity - s.reserved })) ∧
    (∀ v ∈ find_slots_for_date eco dt, v.remain = v.capacity - v.reserved) ∧
    ((∀ p ∈ eco.programs, ∀ s ∈ p.availableSlots, (s.date == formatDate dt) = false) →
      find_slots_for_date eco dt = []) := by
  have hfs := find_slots_eq eco dt
  refine ⟨?_, ?_, ?_⟩
  · rw [hfs, List.flatMap_def]
    rfl
  · intro v hv
    rw [hfs] at hv
    simp only [List.mem_flatten, List.mem_map] at hv
    obtain ⟨l, ⟨p, hp, rfl⟩, hv⟩ := hv
    simp only [matchingViews, List.mem_map] at hv
    obtain ⟨s, hs, rfl⟩ := hv
    rfl
  · intro h
    rw [hfs, List.flatten_eq_nil_iff]
    intro l hl
    simp only [List.mem_map] at hl
    obtain ⟨p, hp, rfl⟩ := hl
    have hf : p.availableSlots.filter (fun s => s.date == formatDate dt) = [] := by
      rw [List.filter_eq_nil_iff]
      intro s hs
      simp [h p hp s (by simpa using hs)]
    simp [matchingViews, hf]

/-- Witness for C1: a date matching no slot yields the empty list. -/
theorem find_slots_for_date_spec_witness :
    find_slots_for_date ecoEx ⟨2025, 1, 1⟩ = [] :=
  (find_slots_for_date_spec ecoEx ⟨2025, 1, 1⟩).2.2 (by decide)

/-- C2: `parse_auto_fill` returns `None` whenever the opening marker, the
closing marker, or both are absent, and returns a (possibly empty) mapping
whenever both markers are present. -/
theorem parse_auto_fill_marker_cases (r : PyStr) :
    ((pyIn AUTO_OPEN r = false ∨ pyIn AUTO_CLOSE r = false) → parse_auto_fill r = none) ∧
    (pyIn AUTO_OPEN r = true → pyIn AUTO_CLOSE r = true →
      (parse_auto_fill r).isSome = true) := by
  constructor
  · intro h
    unfold parse_auto_fill
    rcases h with h | h <;> rw [h] <;> simp
  · intro h1 h2
    unfold parse_auto_fill
    rw [h1, h2]
    simp

/-- Witness for C2: a marker-free text parses to `None`; the spec's example
with both markers parses to a mapping. -/
theorem parse_auto_fill_marker_cases_witness :
    parse_auto_fill (pyStr "hello") = none ∧ (parse_auto_fill autoFillEx).isSome = true :=
  ⟨(parse_auto_fill_marker_cases (pyStr "hello")).1 (Or.inl (by decide)),
   (parse_auto_fill_marker_cases autoFillEx).2 (by decide) (by decide)⟩

/-- C3: between the markers the region is parsed line by line — a line with
a colon splits at the first colon only into a trimmed key and a trimmed
value (later colons stay in the value), colon-free lines are silently
ignored, and unrecognized keys are stored as well; on the spec's example
the parser returns exactly the three-field mapping. -/
theorem parse_auto_fill_line_parsing :
    parse_auto_fill autoFillEx =
      some [(pyStr "DATE", pyStr "2025-09-15"), (pyStr "PROGRAM", pyStr "Forest Walk"),
        (pyStr "TIME", pyStr "10:00-11:00")] ∧
    (∀ data line, line.contains ':' = false → parseLineStep data line = data) ∧
    (∀ data a b, a.contains ':' = false →
      parseLineStep data (a ++ ':' :: b) = dictSet data (pyStrip a) (pyStrip b)) ∧
    parse_auto_fill autoFillExtraEx =
      some [(pyStr "NOTE", pyStr "hi"), (pyStr "DATE", pyStr "2025-09-15")] := by
  refine ⟨by decide, ?_, ?_, by decide⟩
  · intro data line h
    unfold parseLineStep
    rw [if_neg (by simpa using h)]
  · intro data a b ha
    unfold parseLineStep
    rw [if_pos (contains_append_colon a b), takeWhile_colon a b ha, dropWhile_colon a b ha]
    rfl

/-- Witness for C3: a colon-free line is skipped; a `TIME` line splits at
its first colon only. -/
theorem parse_auto_fill_line_parsing_witness :
    parseLineStep [] (pyStr "no colon") = [] ∧
    parseLineStep [] (pyStr "TIME" ++ ':' :: pyStr " 10:00-11:00") =
      dictSet [] (pyStrip (pyStr "TIME")) (pyStrip (pyStr " 10:00-11:00")) :=
  ⟨parse_auto_fill_line_parsing.2.1 [] (pyStr "no colon") (by decide),
   parse_auto_fill_line_parsing.2.2.1 [] (pyStr "TIME") (pyStr " 10:00-11:00") (by decide)⟩

/-- A form state with nothing filled in. -/
def formEmptyEx : FormInput := ⟨none, none, [], [], [], [], 10, false⟩

/-- A fully valid form state. -/
def formFullEx : FormInput :=
  ⟨some ⟨2025, 9, 15⟩, some (pyStr "숲 체험|10:00-11:00"), pyStr "서울초등학교 3학년",
    pyStr "010-0000-0000", pyStr "김담당", pyStr "a@b.c", 30, true⟩

/-- C4: the submit validation runs its checks in the fixed source order —
date chosen, program chosen, required text fields non-empty, terms agreed —
and the first failing check alone determines the single reported error,
independently of every later input; in particular with no date selected the
result is exactly the select-a-date error whatever the other inputs hold. -/
theorem submit_validation_order (f : FormInput) (afd : Option (List (PyStr × PyStr)))
    (sd : Option PyDate) :
    (f.form_date = none → submitHandler f afd sd = (.error errSelectDate, afd, sd)) ∧
    (f.form_date.isSome = true → pyTruthyStr f.selected_program = false →
      submitHandler f afd sd = (.error errSelectProgram, afd, sd)) ∧
    (f.form_date.isSome = true → pyTruthyStr f.selected_program = true →
      (f.org_name.isEmpty || f.contact.isEmpty || f.representative.isEmpty) = true →
      submitHandler f afd sd = (.error errRequiredFields, afd, sd)) ∧
    (f.form_date.isSome = true → pyTruthyStr f.selected_program = true →
      (f.org_name.isEmpty || f.contact.isEmpty || f.representative.isEmpty) = false →
      f.agree_terms = false →
      submitHandler f afd sd = (.error errAgreeTerms, afd, sd)) := by
  refine ⟨?_, ?_, ?_, ?_⟩
  · intro h
    simp [submitHandler, h]
  · intro h1 h2
    cases hfd : f.form_date with
    | none => rw [hfd] at h1; simp at h1
    | some d => simp [submitHandler, hfd, h2]
  · intro h1 h2 h3
    cases hfd : f.form_date with
    | none => rw [hfd] at h1; simp at h1
    | some d => simp [submitHandler, hfd, h2, h3]
  · intro h1 h2 h3 h4
    cases hfd : f.form_date with
    | none => rw [hfd] at h1; simp at h1
    | some d => simp_all [submitHandler, hfd]

/-- Witness for C4: submitting the empty form reports exactly the
select-a-date error. -/
theorem submit_validation_order_witness :
    submitHandler formEmptyEx none none = (.error errSelectDate, none, none) :=
  (submit_validation_order formEmptyEx none none).1 rfl

/-- C5: a submit with date, truthy program selection, the three required
text fields non-empty and terms agreed yields the success summary and
resets `auto_fill_data` and `selected_date` to `None`; every validation
failure leaves both session fields unchanged. -/
theorem submit_success_resets (f : FormInput) (afd : Option (List (PyStr × PyStr)))
    (sd : Option PyDate) :
    (f.form_date.isSome = true → pyTruthyStr f.selected_program = true →
      f.org_name.isEmpty = false → f.contact.isEmpty = false →
      f.representative.isEmpty = false → f.agree_terms = true →
      submitHandler f afd sd = (.success (successSummary f), none, none)) ∧
    (∀ msg, (submitHandler f afd sd).1 = .error msg →
      (submitHandler f afd sd).2 = (afd, sd)) := by
  constructor
  · intro h1 h2 h3 h4 h5 h6
    cases hfd : f.form_date with
    | none => rw [hfd] at h1; simp at h1
    | some d => simp [submitHandler, hfd, h2, h3, h4, h5, h6]
  · intro msg h
    cases h1 : f.form_date.isNone <;>
      cases h2 : pyTruthyStr f.selected_program <;>
        cases h3 : (f.org_name.isEmpty || f.contact.isEmpty || f.representative.isEmpty) <;>
          cases h4 : f.agree_terms <;>
            simp_all [submitHandler] <;>
              split <;> rfl

/-- Witness for C5: the fully valid form succeeds and clears the session
auto-fill and date selection. -/
theorem submit_success_resets_witness :
    submitHandler formFullEx (some [(pyStr "DATE", pyStr "2025-09-15")]) (some ⟨2025, 9, 15⟩) =
      (.success (successSummary formFullEx), none, none) :=
  (submit_success_resets formFullEx (some [(pyStr "DATE", pyStr "2025-09-15")])
      (some ⟨2025, 9, 15⟩)).1 rfl (by decide) (by decide) (by decide) (by decide) rfl

/-- C6: when the parsed auto-fill dict is truthy, the appended assistant
turn is the reply truncated at the first occurrence of the opening marker
(everything from the marker onward removed), stripped, with the fixed
confirmation suffix appended; otherwise the reply is appended verbatim. -/
theorem chat_display_strips_marker (hist : List Turn) (afd : Option (List (PyStr × PyStr)))
    (prompt reply : PyStr) :
    (pyTruthyDict (parse_auto_fill reply) = true →
      ∃ i, strFind reply AUTO_OPEN = some i ∧
        AUTO_OPEN.isPrefixOf (reply.drop i) = true ∧
        (∀ j, j < i → AUTO_OPEN.isPrefixOf (reply.drop j) = false) ∧
        (chatStep hist afd prompt reply).1 =
          hist ++ [⟨pyStr "user", prompt⟩,
            ⟨pyStr "assistant", pyStrip (reply.take i) ++ confirmSuffix⟩]) ∧
    (pyTruthyDict (parse_auto_fill reply) = false →
      (chatStep hist afd prompt reply).1 =
        hist ++ [⟨pyStr "user", prompt⟩, ⟨pyStr "assistant", reply⟩]) := by
  constructor
  · intro ht
    have hs := pyTruthyDict_isSome _ ht
    obtain ⟨h1, -⟩ := parse_auto_fill_isSome_markers reply hs
    unfold pyIn at h1
    obtain ⟨i, hi⟩ := Option.isSome_iff_exists.mp h1
    obtain ⟨hpre, hmin⟩ := strFind_some reply AUTO_OPEN i hi
    refine ⟨i, hi, hpre, hmin, ?_⟩
    simp [chatStep, ht, takeBeforeSub, hi]
  · intro hf
    simp [chatStep, hf]

/-- Witness for C6: a reply with a block is truncated before the marker and
suffixed; a plain reply is shown verbatim. -/
theorem chat_display_strips_marker_witness :
    (∃ i, strFind replyEx AUTO_OPEN = some i ∧
      AUTO_OPEN.isPrefixOf (replyEx.drop i) = true ∧
      (∀ j, j < i → AUTO_OPEN.isPrefixOf (replyEx.drop j) = false) ∧
      (chatStep [greeting] none (pyStr "예약할게요") replyEx).1 =
        [greeting] ++ [⟨pyStr "user", pyStr "예약할게요"⟩,
          ⟨pyStr "assistant", pyStrip (replyEx.take i) ++ confirmSuffix⟩]) ∧
    (chatStep [greeting] none (pyStr "안녕") (pyStr "안녕하세요")).1 =
      [greeting] ++ [⟨pyStr "user", pyStr "안녕"⟩, ⟨pyStr "assistant", pyStr "안녕하세요"⟩] :=
  ⟨(chat_display_strips_marker [greeting] none (pyStr "예약할게요") replyEx).1 (by decide),
   (chat_display_strips_marker [greeting] none (pyStr "안녕") (pyStr "안녕하세요")).2 (by decide)⟩

/-- C7: `find_slots_for_date` preserves catalog iteration order — program
order, then slot order within each program, with no sorting by time or
remaining capacity — and for a catalog whose two programs each hold a slot
on the queried date it returns both views, in catalog order. -/
theorem find_slots_for_date_order (eco : EcoData) (dt : PyDate) :
    find_slots_for_date eco dt =
      (eco.programs.map (matchingViews (formatDate dt))).flatten ∧
    (∀ p q : Program, ∀ sp sq : Slot,
      p.availableSlots = [sp] → q.availableSlots = [sq] →
      (sp.date == formatDate dt) = true → (sq.date == formatDate dt) = true →
      find_slots_for_date ⟨eco.centerName, eco.visitRules, [p, q], eco.faq⟩ dt =
        [slotView p sp, slotView q sq]) := by
  refine ⟨find_slots_eq eco dt, ?_⟩
  intro p q sp sq hp hq hsp hsq
  rw [find_slots_eq]
  simp [matchingViews, hp, hq, hsp, hsq]

/-- Witness for C7: both example programs have a slot on 2025-09-15 and
both views come back, in catalog order. -/
theorem find_slots_for_date_order_witness :
    find_slots_for_date
        ⟨ecoEx.centerName, ecoEx.visitRules, [exProgramA, exProgramB], ecoEx.faq⟩
        ⟨2025, 9, 15⟩ =
      [slotView exProgramA exSlotA, slotView exProgramB exSlotB] :=
  (find_slots_for_date_order ecoEx ⟨2025, 9, 15⟩).2 exProgramA exProgramB exSlotA exSlotB
    rfl rfl (by decide) (by decide)

/-- C8: `build_system_prompt` is a deterministic pure function of the
catalog — equal catalogs give the identical instruction string — and the
instruction embeds the full serialized catalog and the three `visitRules`
values into the fixed template, substituting the fallback center-name label
when `centerName` is absent. -/
theorem build_system_prompt_deterministic (e1 e2 : EcoData) (h : e1 = e2) :
    build_system_prompt e1 = build_system_prompt e2 ∧
    (∃ a b, build_system_prompt e1 = a ++ jsonDumps e1 ++ b) ∧
    (∃ a b, build_system_prompt e1 = a ++ pyFmtOptInt e1.visitRules.minPeoplePerTeam ++ b) ∧
    (∃ a b, build_system_prompt e1 = a ++ pyFmtOptInt e1.visitRules.maxPeoplePerTeam ++ b) ∧
    (∃ a b,
      build_system_prompt e1 = a ++ pyFmtOptInt e1.visitRules.reservationDeadlineHours ++ b) ∧
    (e1.centerName = none → ∃ a b, build_system_prompt e1 = a ++ pyStr "자연생태관" ++ b) := by
  refine ⟨congrArg build_system_prompt h, ?_, ?_, ?_, ?_, ?_⟩
  · exact ⟨promptT0 ++ e1.centerName.getD (pyStr "자연생태관") ++ promptT1 ++
      pyFmtOptInt e1.visitRules.minPeoplePerTeam ++ promptT2 ++
      pyFmtOptInt e1.visitRules.maxPeoplePerTeam ++ promptT3 ++
      pyFmtOptInt e1.visitRules.reservationDeadlineHours ++ promptT4, promptT5,
      by simp [build_system_prompt, List.append_assoc]⟩
  · exact ⟨promptT0 ++ e1.centerName.getD (pyStr "자연생태관") ++ promptT1,
      promptT2 ++ pyFmtOptInt e1.visitRules.maxPeoplePerTeam ++ promptT3 ++
        pyFmtOptInt e1.visitRules.reservationDeadlineHours ++ promptT4 ++ jsonDumps e1 ++
        promptT5,
      by simp [build_system_prompt, List.append_assoc]⟩
  · exact ⟨promptT0 ++ e1.centerName.getD (pyStr "자연생태관") ++ promptT1 ++
      pyFmtOptInt e1.visitRules.minPeoplePerTeam ++ promptT2,
      promptT3 ++ pyFmtOptInt e1.visitRules.reservationDeadlineHours ++ promptT4 ++
        jsonDumps e1 ++ promptT5,
      by simp [build_system_prompt, List.append_assoc]⟩
  · exact ⟨promptT0 ++ e1.centerName.getD (pyStr "자연생태관") ++ promptT1 ++
      pyFmtOptInt e1.visitRules.minPeoplePerTeam ++ promptT2 ++
      pyFmtOptInt e1.visitRules.maxPeoplePerTeam ++ promptT3,
      promptT4 ++ jsonDumps e1 ++ promptT5,
      by simp [build_system_prompt, List.append_assoc]⟩
  · intro hc
    exact ⟨promptT0,
      promptT1 ++ pyFmtOptInt e1.visitRules.minPeoplePerTeam ++ promptT2 ++
        pyFmtOptInt e1.visitRules.maxPeoplePerTeam ++ promptT3 ++
        pyFmtOptInt e1.visitRules.reservationDeadlineHours ++ promptT4 ++ jsonDumps e1 ++
        promptT5,
      by simp [build_system_prompt, hc, List.append_assoc]⟩

/-- Witness for C8: on the catalog lacking `centerName`, the prompt embeds
the fallback label. -/
theorem build_system_prompt_deterministic_witness :
    ∃ a b, build_system_prompt ecoNoName = a ++ pyStr "자연생태관" ++ b :=
  (build_system_prompt_deterministic ecoNoName ecoNoName rfl).2.2.2.2.2 rfl

/-- C9: across session start, chat round trips and conversation reset, the
transcript is append-only except for reset's restoration of the initial
single-greeting state, and every reachable transcript starts with the
synthetic assistant greeting. -/
theorem transcript_append_only :
    (∀ s, Reachable s → s.chat_history.head? = some greeting) ∧
    (∀ s op, (applyOp s op).chat_history = [greeting] ∨
      ∃ t, (applyOp s op).chat_history = s.chat_history ++ t) := by
  have happ : ∀ s op, (applyOp s op).chat_history = [greeting] ∨
      ∃ t, (applyOp s op).chat_history = s.chat_history ++ t := by
    intro s op
    cases op with
    | reset => exact Or.inl rfl
    | chat prompt reply =>
      refine Or.inr ?_
      cases h : pyTruthyDict (parse_auto_fill reply) with
      | true =>
        exact ⟨[⟨pyStr "user", prompt⟩,
          ⟨pyStr "assistant", pyStrip (takeBeforeSub AUTO_OPEN reply) ++ confirmSuffix⟩],
          by simp [applyOp, chatStep, h]⟩
      | false =>
        exact ⟨[⟨pyStr "user", prompt⟩, ⟨pyStr "assistant", reply⟩],
          by simp [applyOp, chatStep, h]⟩
  refine ⟨?_, happ⟩
  intro s hs
  induction hs with
  | init => rfl
  | step s op _ ih =>
    rcases happ s op with h | ⟨t, h⟩
    · rw [h]; rfl
    · rw [h]
      cases hc : s.chat_history with
      | nil => rw [hc] at ih; simp at ih
      | cons a l =>
        rw [hc] at ih
        simp only [List.head?_cons, Option.some.injEq] at ih
        simp [ih]

/-- Witness for C9: the initial transcript opens with the greeting. -/
theorem transcript_append_only_witness :
    initialChatState.chat_history.head? = some greeting :=
  transcript_append_only.1 initialChatState Reachable.init

/-- C10: a reply containing both markers whose extracted region (empty when
the first closing marker precedes the opening one) has no colon line makes
`parse_auto_fill` return the empty mapping rather than `None`; the caller's
truthiness test then fails, so no auto-fill state is stored and the reply —
markers included — is appended verbatim. -/
theorem parse_auto_fill_empty_region_behavior (reply : PyStr) (hist : List Turn)
    (afd : Option (List (PyStr × PyStr))) (prompt : PyStr)
    (h1 : pyIn AUTO_OPEN reply = true) (h2 : pyIn AUTO_CLOSE reply = true)
    (h3 : ∀ l ∈ splitOnChar '\n' (autoFillRegion reply), l.contains ':' = false) :
    parse_auto_fill reply = some [] ∧
    chatStep hist afd prompt reply =
      (hist ++ [⟨pyStr "user", prompt⟩, ⟨pyStr "assistant", reply⟩], afd) := by
  have hp : parse_auto_fill reply = some [] := by
    unfold parse_auto_fill
    rw [h1, h2]
    simp [foldl_parseLineStep_nil _ _ h3]
  refine ⟨hp, ?_⟩
  simp [chatStep, hp, pyTruthyDict]

/-- Witness for C10: with the closing marker first, the region is empty,
the parse yields the empty mapping and the displayed text keeps its
markers. -/
theorem parse_auto_fill_empty_region_behavior_witness :
    parse_auto_fill invertedEx = some [] ∧
    chatStep [greeting] none (pyStr "질문") invertedEx =
      ([greeting] ++ [⟨pyStr "user", pyStr "질문"⟩, ⟨pyStr "assistant", invertedEx⟩], none) :=
  parse_auto_fill_empty_region_behavior invertedEx [greeting] none (pyStr "질문")
    (by decide) (by decide) (by decide)
